import Mathlib

/-!
Verification of the Mercury 236 energy-meter reader (`energymeter.py`).

The development embeds the protocol-decode core of the program:

* the command catalogue `req` (parameter name → pre-framed request bytes);
* the measurement snapshot (`Meter`, one rational per physical quantity,
  class-level defaults all `0`);
* `processParam`, the body of one `read_data` loop iteration for a
  non-empty response: dispatch on the parameter name, length guard,
  decode, snapshot assignment;
* `stepParam` / `read_data`, the full exchange loop over the catalogue,
  with the transport abstracted as a function from parameter name to an
  exchange result (an I/O error or a raw byte payload);
* session construction (`energyMeterInit`) with the parity / bytesize /
  stopbits argument parsing and the exception wrapping of `__init__`.

Bytes are modelled as `Nat` reduced `% 256` at every interpretation
point; Python `float` arithmetic on the decoded values is modelled over
`ℚ` (every decode divides exactly representable integers).
-/

/-- Python `str.lower` on the strings used here (ASCII parameter names). -/
def pyLower (s : String) : String := String.mk (s.toList.map Char.toLower)

/-- Python `str.upper` on the strings used here (ASCII parity letters). -/
def pyUpper (s : String) : String := String.mk (s.toList.map Char.toUpper)

/-- Auxiliary for `pyContains`: does `needle` start `hay`? -/
def charsStart : List Char → List Char → Bool
  | [], _ => true
  | _ :: _, [] => false
  | a :: as, b :: bs => a == b && charsStart as bs

/-- Auxiliary for `pyContains`: does `needle` occur inside `hay`? -/
def charsHave (needle : List Char) : List Char → Bool
  | [] => needle.isEmpty
  | b :: bs => charsStart needle (b :: bs) || charsHave needle bs

/-- Python's substring test `needle in hay`. -/
def pyContains (needle hay : String) : Bool := charsHave needle.toList hay.toList

/-- The snapshot attributes of `EnergyMeter` (source lines 13-34),
one per physical quantity. -/
inductive Attr
  | energy_act | energy_react
  | pwr_act | pwr_aL1 | pwr_aL2 | pwr_aL3
  | pwr_react | pwr_rL1 | pwr_rL2 | pwr_rL3
  | pwr_seem | pwr_sL1 | pwr_sL2 | pwr_sL3
  | voltageL1 | voltageL2 | voltageL3
  | currentL1 | currentL2 | currentL3
  | freq | cosf
  deriving DecidableEq, Repr

/-- The measurement snapshot: the value of each attribute. -/
abbrev Meter := Attr → ℚ

/-- Attribute assignment (`setattr` / direct assignment in the source). -/
def setF (f : Attr) (v : ℚ) (s : Meter) : Meter :=
  fun g => if g = f then v else s g

/-- The class-level defaults of `EnergyMeter`: every attribute starts at
the literal `0` (source lines 13-34). -/
def initSnapshot : Meter := fun _ => 0

/-- `struct.unpack("<h", bytes([lo, hi]))[0]`: the signed 16-bit
little-endian integer with low byte `lo` and high byte `hi`. -/
def int16LE (lo hi : Nat) : Int :=
  let u := lo % 256 + 256 * (hi % 256)
  if u < 32768 then (u : Int) else (u : Int) - 65536

/-- `struct.unpack(">I", bytes([b0, b1, b2, b3]))[0]`: the unsigned
32-bit big-endian integer with most significant byte `b0`. -/
def be32 (b0 b1 b2 b3 : Nat) : Nat :=
  (b0 % 256) * 16777216 + (b1 % 256) * 65536 + (b2 % 256) * 256 + (b3 % 256)

/-- The packed power-factor integer of the cosf branch:
`((b0 & 0x3F) << 16) | (b2 << 8) | b1` (source line 357). -/
def cosfPacked (b0 b1 b2 : Nat) : Nat :=
  (((b0 % 256) &&& 0x3F) <<< 16) ||| (((b2 % 256)) <<< 8) ||| (b1 % 256)

/-- The `power_mapping` dictionary of the power branch
(source lines 301-314): parameter name → snapshot attribute. -/
def power_mapping : List (String × Attr) :=
  [("TotalPowerActive", Attr.pwr_act),
   ("PowerActiveL1", Attr.pwr_aL1),
   ("PowerActiveL2", Attr.pwr_aL2),
   ("PowerActiveL3", Attr.pwr_aL3),
   ("TotalPowerReactive", Attr.pwr_react),
   ("PowerReactiveL1", Attr.pwr_rL1),
   ("PowerReactiveL2", Attr.pwr_rL2),
   ("PowerReactiveL3", Attr.pwr_rL3),
   ("TotalPowerSeem", Attr.pwr_seem),
   ("PowerSeemL1", Attr.pwr_sL1),
   ("PowerSeemL2", Attr.pwr_sL2),
   ("PowerSeemL3", Attr.pwr_sL3)]

/-- The command catalogue `EnergyMeter.req` (source lines 41-65):
parameter name → pre-framed, checksum-terminated request bytes. -/
def req : List (String × List Nat) :=
  [("ID", [0x00, 0x08, 0x05, 0xb6, 0x03]),
   ("Admin", [0x00, 0x01, 0x02, 0x02, 0x02, 0x02, 0x02, 0x02, 0x02, 0xb0, 0x07]),
   ("Energy", [0x00, 0x05, 0x00, 0x00, 0x10, 0x25]),
   ("VoltageL1", [0x00, 0x08, 0x11, 0x11, 0x4d, 0xba]),
   ("VoltageL2", [0x00, 0x08, 0x11, 0x12, 0x0d, 0xbb]),
   ("VoltageL3", [0x00, 0x08, 0x11, 0x13, 0xcc, 0x7b]),
   ("TotalPowerActive", [0x00, 0x08, 0x11, 0x00, 0x8d, 0xb6]),
   ("PowerActiveL1", [0x00, 0x08, 0x11, 0x01, 0x4c, 0x76]),
   ("PowerActiveL2", [0x00, 0x08, 0x11, 0x02, 0x0c, 0x77]),
   ("PowerActiveL3", [0x00, 0x08, 0x11, 0x03, 0xcd, 0xb7]),
   ("TotalPowerReactive", [0x00, 0x08, 0x11, 0x04, 0x8c, 0x75]),
   ("PowerReactiveL1", [0x00, 0x08, 0x11, 0x05, 0x4d, 0xb5]),
   ("PowerReactiveL2", [0x00, 0x08, 0x11, 0x06, 0x0d, 0xb4]),
   ("PowerReactiveL3", [0x00, 0x08, 0x11, 0x07, 0xcc, 0x74]),
   ("TotalPowerSeem", [0x00, 0x08, 0x11, 0x08, 0x8c, 0x70]),
   ("PowerSeemL1", [0x00, 0x08, 0x11, 0x09, 0x4d, 0xb0]),
   ("PowerSeemL2", [0x00, 0x08, 0x11, 0x0a, 0x0d, 0xb1]),
   ("PowerSeemL3", [0x00, 0x08, 0x11, 0x0b, 0xcc, 0x71]),
   ("CurrentL1", [0x00, 0x08, 0x11, 0x21, 0x4d, 0xae]),
   ("CurrentL2", [0x00, 0x08, 0x11, 0x22, 0x0d, 0xaf]),
   ("CurrentL3", [0x00, 0x08, 0x11, 0x23, 0xcc, 0x6f]),
   ("Frequency", [0x00, 0x08, 0x11, 0x40, 0x8c, 0x46]),
   ("CosF", [0x00, 0x08, 0x16, 0x30, 0x8f, 0x92])]

/-- The polling order of a pass: the catalogue keys in insertion order. -/
def passNames : List String := req.map Prod.fst

/-- Body of one `read_data` iteration for a non-empty response `payload`
to the request named `param` (source lines 268-358): dispatch on the
parameter name, check the minimum response length, decode, and assign
the decoded value to the matching snapshot attribute.  A too-short
response leaves the snapshot unchanged (`continue`). -/
def processParam (param : String) (payload : List Nat) (s : Meter) : Meter :=
  if param = "Energy" then
    if payload.length < 13 then s
    else
      let rbAct := (payload.drop 1).take 4
      let actVal := be32 (rbAct.getD 1 0) (rbAct.getD 0 0) (rbAct.getD 3 0) (rbAct.getD 2 0)
      let rbReact := (payload.drop 9).take 4
      let reactVal := be32 (rbReact.getD 1 0) (rbReact.getD 0 0) (rbReact.getD 3 0) (rbReact.getD 2 0)
      setF Attr.energy_react (reactVal : ℚ) (setF Attr.energy_act ((actVal : ℚ) * 50) s)
  else if pyContains "power" (pyLower param) then
    if payload.length < 4 then s
    else
      let rbPower : ℚ := ((int16LE (payload.getD 2 0) (payload.getD 3 0) : ℚ) / 100) * 50
      match List.lookup param power_mapping with
      | some f => setF f (rbPower * (if param = "TotalPowerActive" then 10 else 1)) s
      | none => s
  else if pyContains "voltage" (pyLower param) then
    if payload.length < 4 then s
    else
      let rbVoltage : ℚ := (int16LE (payload.getD 2 0) (payload.getD 3 0) : ℚ) / 100
      if param = "VoltageL1" then setF Attr.voltageL1 rbVoltage s
      else if param = "VoltageL2" then setF Attr.voltageL2 rbVoltage s
      else if param = "VoltageL3" then setF Attr.voltageL3 rbVoltage s
      else s
  else if pyContains "current" (pyLower param) then
    if payload.length < 4 then s
    else
      let rbCurrent : ℚ := ((int16LE (payload.getD 2 0) (payload.getD 3 0) : ℚ) / 1000) * 50
      if param = "CurrentL1" then setF Attr.currentL1 rbCurrent s
      else if param = "CurrentL2" then setF Attr.currentL2 rbCurrent s
      else if param = "CurrentL3" then setF Attr.currentL3 rbCurrent s
      else s
  else if pyContains "cosf" (pyLower param) then
    if payload.length < 4 then s
    else
      let b := (payload.drop 1).take 3
      let val := cosfPacked (b.getD 0 0) (b.getD 1 0) (b.getD 2 0)
      setF Attr.cosf ((val : ℚ) / 1000) s
  else s

/-- Outcome of one `send` exchange: a transport-level failure
(`serial.SerialException`, re-raised as `ConnectionError`) or the raw
response bytes (possibly empty). -/
inductive ExchResult
  | ioError
  | ok (payload : List Nat)
  deriving DecidableEq, Repr

/-- One iteration of the `read_data` loop under transport `t`: an I/O
error is caught by the `except` clause and the snapshot is untouched;
an empty payload hits the `if not payload: continue`; otherwise the
response is decoded by `processParam`. -/
def stepParam (t : String → ExchResult) (s : Meter) (param : String) : Meter :=
  match t param with
  | .ioError => s
  | .ok payload => if payload = [] then s else processParam param payload s

/-- `EnergyMeter.read_data`: one full pass over the catalogue, in
insertion order, feeding each response to the matching decode branch. -/
def read_data (t : String → ExchResult) (s : Meter) : Meter :=
  List.foldl (stepParam t) s passNames

/-- Minimum response length demanded by the decode branch that `param`
dispatches to (`13` for energy, `4` for the value branches, `0` where no
branch applies). -/
def minLen (param : String) : Nat :=
  if param = "Energy" then 13
  else if pyContains "power" (pyLower param) then 4
  else if pyContains "voltage" (pyLower param) then 4
  else if pyContains "current" (pyLower param) then 4
  else if pyContains "cosf" (pyLower param) then 4
  else 0

/-- The write footprint of `processParam`: the snapshot attributes the
branch dispatched to by `param` can assign. -/
def fieldsOf (param : String) : List Attr :=
  if param = "Energy" then [Attr.energy_act, Attr.energy_react]
  else if pyContains "power" (pyLower param) then
    match List.lookup param power_mapping with
    | some f => [f]
    | none => []
  else if pyContains "voltage" (pyLower param) then
    if param = "VoltageL1" then [Attr.voltageL1]
    else if param = "VoltageL2" then [Attr.voltageL2]
    else if param = "VoltageL3" then [Attr.voltageL3]
    else []
  else if pyContains "current" (pyLower param) then
    if param = "CurrentL1" then [Attr.currentL1]
    else if param = "CurrentL2" then [Attr.currentL2]
    else if param = "CurrentL3" then [Attr.currentL3]
    else []
  else if pyContains "cosf" (pyLower param) then [Attr.cosf]
  else []

/-- A failed exchange for `param`: transport I/O error, empty response,
or a response shorter than the minimum length of `param`'s branch. -/
def FailedExchange (param : String) : ExchResult → Prop
  | .ioError => True
  | .ok payload => payload = [] ∨ payload.length < minLen param

/-- The `serial.PARITY_*` constants. -/
inductive Parity
  | none | even | odd
  deriving DecidableEq, Repr

/-- Python exceptions relevant to session construction. -/
inductive PyErr
  | valueError (msg : String)
  | serialException (msg : String)
  | connectionError (msg : String)
  deriving DecidableEq, Repr

/-- Python `str(e)` on the exceptions modelled here: the message. -/
def errStr : PyErr → String
  | .valueError m => m
  | .serialException m => m
  | .connectionError m => m

/-- The `parity_map` dictionary of `_parse_parity` (source lines 102-106). -/
def parity_map : List (String × Parity) :=
  [("N", Parity.none), ("E", Parity.even), ("O", Parity.odd)]

/-- `EnergyMeter._parse_parity`: `parity_map.get(parity.upper(), PARITY_NONE)`
— an unrecognised parity silently falls back to `PARITY_NONE`. -/
def parse_parity (parity : String) : Parity :=
  (List.lookup (pyUpper parity) parity_map).getD Parity.none

/-- `EnergyMeter._parse_bytesize`: raises `ValueError` unless the data
bits are one of 5, 6, 7, 8 (source lines 110-114). -/
def parse_bytesize (bytesize : Nat) : Except PyErr Nat :=
  if bytesize ∉ [5, 6, 7, 8] then
    .error (.valueError "Bytesize must be 5, 6, 7, or 8")
  else .ok bytesize

/-- `EnergyMeter._parse_stopbits`: raises `ValueError` unless the stop
bits are 1 or 2, then converts to `float` (source lines 117-121). -/
def parse_stopbits (stopbits : Nat) : Except PyErr ℚ :=
  if stopbits ∉ [1, 2] then
    .error (.valueError "Stopbits must be 1 or 2")
  else .ok (stopbits : ℚ)

/-- The opened serial session: the validated configuration. -/
structure Session where
  parity : Parity
  bytesize : Nat
  stopbits : ℚ
  deriving DecidableEq, Repr

/-- The body of the `try` block of `EnergyMeter.__init__`: Python
evaluates the `serial.Serial` arguments in order (parity conversion
never fails, then bytesize validation, then stopbits validation), and
only then attempts to open the port; `portResult` abstracts the outcome
of the `serial.Serial` call itself. -/
def openSerial (parity : String) (bytesize stopbits : Nat)
    (portResult : Except PyErr Unit) : Except PyErr Session :=
  match parse_bytesize bytesize with
  | .error e => .error e
  | .ok bs =>
    match parse_stopbits stopbits with
    | .error e => .error e
    | .ok sb =>
      match portResult with
      | .error e => .error e
      | .ok _ => .ok ⟨parse_parity parity, bs, sb⟩

/-- `EnergyMeter.__init__` (source lines 87-97): any exception raised
inside the `try` block — argument validation included — is re-raised as
`ConnectionError(f"Failed to open serial port {port}: {str(e)}")`. -/
def energyMeterInit (port parity : String) (bytesize stopbits : Nat)
    (portResult : Except PyErr Unit) : Except PyErr Session :=
  match openSerial parity bytesize stopbits portResult with
  | .ok s => .ok s
  | .error e =>
      .error (.connectionError
        ("Failed to open serial port " ++ port ++ ": " ++ errStr e))

/-- C1: for every response of length at least 13 to the Energy request,
the decode sets active energy to the word-swapped big-endian 32-bit
integer of bytes 1..4 multiplied by 50, and reactive energy to the
word-swapped big-endian 32-bit integer of bytes 9..12 with no scaling. -/
theorem energy_decode_rule (s : Meter) (payload : List Nat)
    (h : 13 ≤ payload.length) :
    processParam "Energy" payload s Attr.energy_act
      = (be32 (payload.getD 2 0) (payload.getD 1 0) (payload.getD 4 0) (payload.getD 3 0) : ℚ) * 50
    ∧ processParam "Energy" payload s Attr.energy_react
      = (be32 (payload.getD 10 0) (payload.getD 9 0) (payload.getD 12 0) (payload.getD 11 0) : ℚ) := by
  have hlt : ¬ payload.length < 13 := by omega
  constructor <;>
    simp [processParam, hlt, setF, List.getD, List.getElem?_take, List.getElem?_drop]

/-- Witness for C1 at the spec's fixture: active-counter raw bytes
`01 00 00 00` decode to 3,276,800. -/
theorem energy_decode_rule_witness :
    13 ≤ ([0, 1, 0, 0, 0, 0, 0, 0, 0, 0, 0, 0, 0] : List Nat).length ∧
    processParam "Energy" [0, 1, 0, 0, 0, 0, 0, 0, 0, 0, 0, 0, 0] initSnapshot Attr.energy_act
      = 3276800 := by
  refine ⟨by decide, ?_⟩
  rw [(energy_decode_rule initSnapshot [0, 1, 0, 0, 0, 0, 0, 0, 0, 0, 0, 0, 0] (by decide)).1]
  norm_num [be32]

/-- C2: for every power parameter of the catalogue and every response of
length at least 4, the decoded value is the signed 16-bit little-endian
integer at bytes 2..3 divided by 100 and multiplied by 50, further
multiplied by 10 exactly when the parameter is `TotalPowerActive`. -/
theorem power_decode_rule (param : String) (f : Attr)
    (hm : (param, f) ∈ power_mapping)
    (payload : List Nat) (s : Meter) (h : 4 ≤ payload.length) :
    processParam param payload s f
      = (int16LE (payload.getD 2 0) (payload.getD 3 0) : ℚ) / 100 * 50
        * (if param = "TotalPowerActive" then 10 else 1) := by
  have hlt : ¬ payload.length < 4 := by omega
  fin_cases hm <;>
  · simp only [processParam]
    rw [if_neg (by decide), if_pos (by decide), if_neg hlt]
    simp [power_mapping, List.lookup, setF]

/-- Witness for C2 at the spec's fixture: raw bytes `64 00` decode to
500 for `TotalPowerActive` and to 50 for the per-phase `PowerActiveL1`. -/
theorem power_decode_rule_witness :
    ("TotalPowerActive", Attr.pwr_act) ∈ power_mapping ∧
    ("PowerActiveL1", Attr.pwr_aL1) ∈ power_mapping ∧
    4 ≤ ([0, 0, 0x64, 0] : List Nat).length ∧
    processParam "TotalPowerActive" [0, 0, 0x64, 0] initSnapshot Attr.pwr_act = 500 ∧
    processParam "PowerActiveL1" [0, 0, 0x64, 0] initSnapshot Attr.pwr_aL1 = 50 := by
  refine ⟨by decide, by decide, by decide, ?_, ?_⟩
  · rw [power_decode_rule "TotalPowerActive" Attr.pwr_act (by decide) _ initSnapshot (by decide)]
    norm_num [int16LE]
  · rw [power_decode_rule "PowerActiveL1" Attr.pwr_aL1 (by decide) _ initSnapshot (by decide),
      if_neg (by decide : ¬ ("PowerActiveL1" : String) = "TotalPowerActive")]
    norm_num [int16LE]

/-- Counterexample to C3 as stated: the claim converts `0x021234` to the
decimal 135220, but `0x021234` is 135732 (135220 is `0x021034`); on the
claimed response bytes the decode produces 135.732, not 135.22. -/
theorem cosf_fixture_cx :
    cosfPacked 0x02 0x34 0x12 = 135732 ∧
    ¬ cosfPacked 0x02 0x34 0x12 = 135220 ∧
    ¬ processParam "CosF" [0, 0x02, 0x34, 0x12] initSnapshot Attr.cosf = (135220 : ℚ) / 1000 := by
  refine ⟨by decide, by decide, ?_⟩
  have c1 : pyContains "power" (pyLower "CosF") = false := by decide
  have c2 : pyContains "voltage" (pyLower "CosF") = false := by decide
  have c3 : pyContains "current" (pyLower "CosF") = false := by decide
  have c4 : pyContains "cosf" (pyLower "CosF") = true := by decide
  have hp : cosfPacked 0x02 0x34 0x12 = 135732 := by decide
  simp only [processParam, if_neg (by decide : ¬ ("CosF" : String) = "Energy"), c1, c2, c3, c4]
  norm_num [setF, List.getD, hp]

/-- C3 (amended): for a CosF response whose bytes 1..3 are
`[0x02, 0x34, 0x12]`, the power-factor decode — mask byte0 with `0x3F`,
shift left 16, OR with `byte2 <<< 8`, OR with byte1, divide by 1000 —
yields the packed integer `0x021234` = 135732 and the value 135.732. -/
theorem cosf_fixture_decode (s : Meter) (payload : List Nat)
    (h : 4 ≤ payload.length)
    (h1 : payload.getD 1 0 = 0x02) (h2 : payload.getD 2 0 = 0x34)
    (h3 : payload.getD 3 0 = 0x12) :
    cosfPacked 0x02 0x34 0x12 = 135732 ∧
    processParam "CosF" payload s Attr.cosf = (135732 : ℚ) / 1000 := by
  have hlt : ¬ payload.length < 4 := by omega
  refine ⟨by decide, ?_⟩
  have c1 : pyContains "power" (pyLower "CosF") = false := by decide
  have c2 : pyContains "voltage" (pyLower "CosF") = false := by decide
  have c3 : pyContains "current" (pyLower "CosF") = false := by decide
  have c4 : pyContains "cosf" (pyLower "CosF") = true := by decide
  have hp : cosfPacked 0x02 0x34 0x12 = 135732 := by decide
  simp only [processParam, if_neg (by decide : ¬ ("CosF" : String) = "Energy"), c1, c2, c3, c4,
    if_neg hlt]
  simp only [List.getD_eq_getElem?_getD] at h1 h2 h3
  simp [setF, List.getD, List.getElem?_take, List.getElem?_drop, h1, h2, h3, hp]

/-- Witness for C3 (amended) at the concrete response `[0, 02, 34, 12]`. -/
theorem cosf_fixture_decode_witness :
    4 ≤ ([0, 0x02, 0x34, 0x12] : List Nat).length ∧
    processParam "CosF" [0, 0x02, 0x34, 0x12] initSnapshot Attr.cosf = (135732 : ℚ) / 1000 :=
  ⟨by decide,
   (cosf_fixture_decode initSnapshot [0, 0x02, 0x34, 0x12]
      (by decide) (by decide) (by decide) (by decide)).2⟩

/-- C5: for every per-phase voltage response of length at least 4 the
decoded voltage is the signed 16-bit little-endian integer at bytes 2..3
divided by 100, and for every per-phase current response of length at
least 4 the decoded current is the same integer divided by 1000 and
multiplied by 50. -/
theorem voltage_current_decode_rule (payload : List Nat) (s : Meter)
    (h : 4 ≤ payload.length) :
    (processParam "VoltageL1" payload s Attr.voltageL1
       = (int16LE (payload.getD 2 0) (payload.getD 3 0) : ℚ) / 100)
  ∧ (processParam "VoltageL2" payload s Attr.voltageL2
       = (int16LE (payload.getD 2 0) (payload.getD 3 0) : ℚ) / 100)
  ∧ (processParam "VoltageL3" payload s Attr.voltageL3
       = (int16LE (payload.getD 2 0) (payload.getD 3 0) : ℚ) / 100)
  ∧ (processParam "CurrentL1" payload s Attr.currentL1
       = (int16LE (payload.getD 2 0) (payload.getD 3 0) : ℚ) / 1000 * 50)
  ∧ (processParam "CurrentL2" payload s Attr.currentL2
       = (int16LE (payload.getD 2 0) (payload.getD 3 0) : ℚ) / 1000 * 50)
  ∧ (processParam "CurrentL3" payload s Attr.currentL3
       = (int16LE (payload.getD 2 0) (payload.getD 3 0) : ℚ) / 1000 * 50) := by
  have hlt : ¬ payload.length < 4 := by omega
  refine ⟨?_, ?_, ?_, ?_, ?_, ?_⟩
  · have c1 : pyContains "power" (pyLower "VoltageL1") = false := by decide
    have c2 : pyContains "voltage" (pyLower "VoltageL1") = true := by decide
    simp [processParam, c1, c2, hlt, setF]
  · have c1 : pyContains "power" (pyLower "VoltageL2") = false := by decide
    have c2 : pyContains "voltage" (pyLower "VoltageL2") = true := by decide
    simp [processParam, c1, c2, hlt, setF]
  · have c1 : pyContains "power" (pyLower "VoltageL3") = false := by decide
    have c2 : pyContains "voltage" (pyLower "VoltageL3") = true := by decide
    simp [processParam, c1, c2, hlt, setF]
  · have c1 : pyContains "power" (pyLower "CurrentL1") = false := by decide
    have c2 : pyContains "voltage" (pyLower "CurrentL1") = false := by decide
    have c3 : pyContains "current" (pyLower "CurrentL1") = true := by decide
    simp [processParam, c1, c2, c3, hlt, setF]
  · have c1 : pyContains "power" (pyLower "CurrentL2") = false := by decide
    have c2 : pyContains "voltage" (pyLower "CurrentL2") = false := by decide
    have c3 : pyContains "current" (pyLower "CurrentL2") = true := by decide
    simp [processParam, c1, c2, c3, hlt, setF]
  · have c1 : pyContains "power" (pyLower "CurrentL3") = false := by decide
    have c2 : pyContains "voltage" (pyLower "CurrentL3") = false := by decide
    have c3 : pyContains "current" (pyLower "CurrentL3") = true := by decide
    simp [processParam, c1, c2, c3, hlt, setF]

/-- Witness for C5 at the spec's fixtures: voltage bytes `d0 07` decode
to 20.0 V and current bytes `e8 03` decode to 50.0 A. -/
theorem voltage_current_decode_rule_witness :
    4 ≤ ([0, 0, 0xd0, 0x07] : List Nat).length ∧
    processParam "VoltageL1" [0, 0, 0xd0, 0x07] initSnapshot Attr.voltageL1 = 20 ∧
    processParam "CurrentL1" [0, 0, 0xe8, 0x03] initSnapshot Attr.currentL1 = 50 := by
  refine ⟨by decide, ?_, ?_⟩
  · rw [(voltage_current_decode_rule [0, 0, 0xd0, 0x07] initSnapshot (by decide)).1]
    norm_num [int16LE]
  · rw [(voltage_current_decode_rule [0, 0, 0xe8, 0x03] initSnapshot (by decide)).2.2.2.1]
    norm_num [int16LE]

/-- The packed power-factor integer is bounded by the `0x3F` mask: it is
always below `2 ^ 22`. -/
lemma cosfPacked_lt (b0 b1 b2 : Nat) : cosfPacked b0 b1 b2 < 4194304 := by
  have h1 : ((b0 % 256) &&& 0x3F) <<< 16 < 2 ^ 22 := by
    have hm : (b0 % 256) &&& 0x3F < 2 ^ 6 :=
      Nat.and_lt_two_pow (b0 % 256) (by norm_num : (0x3F : Nat) < 2 ^ 6)
    calc ((b0 % 256) &&& 0x3F) <<< 16 = ((b0 % 256) &&& 0x3F) * 2 ^ 16 :=
          Nat.shiftLeft_eq _ _
      _ < 2 ^ 6 * 2 ^ 16 := by
          exact (Nat.mul_lt_mul_right (by norm_num : 0 < 2 ^ 16)).mpr hm
      _ = 2 ^ 22 := by norm_num
  have h2 : (b2 % 256) <<< 8 < 2 ^ 22 := by
    rw [Nat.shiftLeft_eq]
    have hm : b2 % 256 < 256 := Nat.mod_lt _ (by norm_num)
    calc (b2 % 256) * 2 ^ 8 < 256 * 2 ^ 8 := by
          exact (Nat.mul_lt_mul_right (by norm_num : 0 < 2 ^ 8)).mpr hm
      _ ≤ 2 ^ 22 := by norm_num
  have h3 : b1 % 256 < 2 ^ 22 :=
    lt_of_lt_of_le (Nat.mod_lt _ (by norm_num)) (by norm_num)
  have := Nat.or_lt_two_pow (Nat.or_lt_two_pow h1 h2) h3
  simpa [cosfPacked] using this

/-- Counterexample to C7 as stated: the response `[0, 02, 34, 12]` is
accepted by the cosf rule (length 4) yet decodes to 135.732, outside the
claimed domain [0, 1.000]. -/
theorem cosf_domain_cx :
    4 ≤ ([0, 0x02, 0x34, 0x12] : List Nat).length ∧
    (1 : ℚ) < processParam "CosF" [0, 0x02, 0x34, 0x12] initSnapshot Attr.cosf := by
  refine ⟨by decide, ?_⟩
  have c1 : pyContains "power" (pyLower "CosF") = false := by decide
  have c2 : pyContains "voltage" (pyLower "CosF") = false := by decide
  have c3 : pyContains "current" (pyLower "CosF") = false := by decide
  have c4 : pyContains "cosf" (pyLower "CosF") = true := by decide
  have hp : cosfPacked 0x02 0x34 0x12 = 135732 := by decide
  simp only [processParam, if_neg (by decide : ¬ ("CosF" : String) = "Energy"), c1, c2, c3, c4]
  norm_num [setF, List.getD, hp]

/-- C7 (amended): every response accepted by the power-factor decode
rule produces a nonnegative value of at most 4194.303 (the `0x3F` mask
bounds the packed integer below `2 ^ 22`); the value is not confined to
[0, 1.000]. -/
theorem cosf_value_range (s : Meter) (payload : List Nat)
    (h : 4 ≤ payload.length) :
    0 ≤ processParam "CosF" payload s Attr.cosf ∧
    processParam "CosF" payload s Attr.cosf ≤ (4194303 : ℚ) / 1000 := by
  have hlt : ¬ payload.length < 4 := by omega
  have c1 : pyContains "power" (pyLower "CosF") = false := by decide
  have c2 : pyContains "voltage" (pyLower "CosF") = false := by decide
  have c3 : pyContains "current" (pyLower "CosF") = false := by decide
  have c4 : pyContains "cosf" (pyLower "CosF") = true := by decide
  have key : processParam "CosF" payload s Attr.cosf
      = (cosfPacked (((payload.drop 1).take 3).getD 0 0) (((payload.drop 1).take 3).getD 1 0)
          (((payload.drop 1).take 3).getD 2 0) : ℚ) / 1000 := by
    simp [processParam, if_neg (by decide : ¬ ("CosF" : String) = "Energy"), c1, c2, c3, c4,
      hlt, setF]
  rw [key]
  constructor
  · positivity
  · have hb : cosfPacked (((payload.drop 1).take 3).getD 0 0)
        (((payload.drop 1).take 3).getD 1 0) (((payload.drop 1).take 3).getD 2 0) ≤ 4194303 := by
      have := cosfPacked_lt (((payload.drop 1).take 3).getD 0 0)
        (((payload.drop 1).take 3).getD 1 0) (((payload.drop 1).take 3).getD 2 0)
      omega
    have hb' : (cosfPacked (((payload.drop 1).take 3).getD 0 0)
        (((payload.drop 1).take 3).getD 1 0) (((payload.drop 1).take 3).getD 2 0) : ℚ)
        ≤ 4194303 := by exact_mod_cast hb
    gcongr

/-- Witness for C7 (amended) at the concrete response `[0, 02, 34, 12]`. -/
theorem cosf_value_range_witness :
    4 ≤ ([0, 0x02, 0x34, 0x12] : List Nat).length ∧
    0 ≤ processParam "CosF" [0, 0x02, 0x34, 0x12] initSnapshot Attr.cosf ∧
    processParam "CosF" [0, 0x02, 0x34, 0x12] initSnapshot Attr.cosf ≤ (4194303 : ℚ) / 1000 :=
  ⟨by decide,
   (cosf_value_range initSnapshot [0, 0x02, 0x34, 0x12] (by decide)).1,
   (cosf_value_range initSnapshot [0, 0x02, 0x34, 0x12] (by decide)).2⟩

/-- Counterexample to C8 as stated: before any decode the voltage-L1
accessor yields the literal `0`, and a successful decode of a zero-valued
response stores the very same `0` — there is no absent sentinel
distinguishable from a decoded zero. -/
theorem absent_sentinel_cx :
    initSnapshot Attr.voltageL1 = 0 ∧
    processParam "VoltageL1" [0, 0, 0, 0] initSnapshot Attr.voltageL1
      = initSnapshot Attr.voltageL1 := by
  refine ⟨rfl, ?_⟩
  have c1 : pyContains "power" (pyLower "VoltageL1") = false := by decide
  have c2 : pyContains "voltage" (pyLower "VoltageL1") = true := by decide
  norm_num [processParam, if_neg (by decide : ¬ ("VoltageL1" : String) = "Energy"),
    c1, c2, setF, int16LE, initSnapshot]

/-- C8 (amended): the not-yet-read state of every quantity is the
numeric class default `0`, not an absent sentinel: every accessor reads
`0` before any decode, and a decoded zero is indistinguishable from it. -/
theorem initial_values_are_zero :
    (∀ f : Attr, initSnapshot f = 0) ∧
    processParam "VoltageL1" [0, 0, 0, 0] initSnapshot Attr.voltageL1 = 0 := by
  refine ⟨fun _ => rfl, ?_⟩
  have c1 : pyContains "power" (pyLower "VoltageL1") = false := by decide
  have c2 : pyContains "voltage" (pyLower "VoltageL1") = true := by decide
  norm_num [processParam, if_neg (by decide : ¬ ("VoltageL1" : String) = "Energy"),
    c1, c2, setF, int16LE, initSnapshot]

/-- C10: the catalogue entries `ID` and `Admin` are polled like every
other entry, but no decode branch matches their names, so no response to
them can modify any snapshot attribute. -/
theorem id_admin_no_snapshot_effect :
    ("ID" ∈ passNames ∧ "Admin" ∈ passNames) ∧
    ∀ (payload : List Nat) (s : Meter),
      processParam "ID" payload s = s ∧ processParam "Admin" payload s = s := by
  refine ⟨⟨by decide, by decide⟩, fun payload s => ⟨?_, ?_⟩⟩
  · simp only [processParam]
    rw [if_neg (by decide : ¬ ("ID" : String) = "Energy"),
      if_neg (by decide : ¬ pyContains "power" (pyLower "ID") = true),
      if_neg (by decide : ¬ pyContains "voltage" (pyLower "ID") = true),
      if_neg (by decide : ¬ pyContains "current" (pyLower "ID") = true),
      if_neg (by decide : ¬ pyContains "cosf" (pyLower "ID") = true)]
  · simp only [processParam]
    rw [if_neg (by decide : ¬ ("Admin" : String) = "Energy"),
      if_neg (by decide : ¬ pyContains "power" (pyLower "Admin") = true),
      if_neg (by decide : ¬ pyContains "voltage" (pyLower "Admin") = true),
      if_neg (by decide : ¬ pyContains "current" (pyLower "Admin") = true),
      if_neg (by decide : ¬ pyContains "cosf" (pyLower "Admin") = true)]

/-- Counterexample to C6 as stated: the parity value `"X"` is outside
{none, even, odd}, yet session construction does not fail —
`_parse_parity` silently falls back to `PARITY_NONE` and the session is
started. -/
theorem invalid_parity_accepted_cx :
    List.lookup (pyUpper "X") parity_map = none ∧
    energyMeterInit "/dev/ttyUSB0" "X" 8 1 (.ok ()) = .ok ⟨Parity.none, 8, 1⟩ := by
  constructor
  · decide
  · rfl

/-- C6 (amended): invalid data bits (outside {5,6,7,8}) or stop bits
(outside {1,2}) make session construction fail before any I/O is
attempted — the result is an error for every possible port-open outcome
— and no session is started; the failure surfaces as the wrapped
connection error, and an invalid parity value is not rejected. -/
theorem config_validation_before_open (port parity : String) (bytesize stopbits : Nat)
    (h : bytesize ∉ [5, 6, 7, 8] ∨ stopbits ∉ [1, 2]) :
    ∀ portResult : Except PyErr Unit,
      ∃ m, energyMeterInit port parity bytesize stopbits portResult
        = .error (.connectionError m) := by
  intro r
  rcases h with h | h
  · have hpb : parse_bytesize bytesize
        = .error (.valueError "Bytesize must be 5, 6, 7, or 8") := if_pos h
    refine ⟨"Failed to open serial port " ++ port ++ ": " ++ "Bytesize must be 5, 6, 7, or 8", ?_⟩
    simp [energyMeterInit, openSerial, hpb, errStr]
  · have hps : parse_stopbits stopbits
        = .error (.valueError "Stopbits must be 1 or 2") := if_pos h
    cases hpb : parse_bytesize bytesize with
    | error e =>
      refine ⟨"Failed to open serial port " ++ port ++ ": " ++ errStr e, ?_⟩
      simp [energyMeterInit, openSerial, hpb]
    | ok bs =>
      refine ⟨"Failed to open serial port " ++ port ++ ": " ++ "Stopbits must be 1 or 2", ?_⟩
      simp [energyMeterInit, openSerial, hpb, hps, errStr]

/-- Witness for C6 (amended) at data bits 9 with a succeeding port. -/
theorem config_validation_before_open_witness :
    (9 : Nat) ∉ [5, 6, 7, 8] ∧
    ∃ m, energyMeterInit "/dev/ttyUSB0" "N" 9 1 (.ok ())
      = .error (.connectionError m) :=
  ⟨by decide,
   config_validation_before_open "/dev/ttyUSB0" "N" 9 1 (Or.inl (by decide)) (.ok ())⟩

/-- C9: every failure of session construction — the ValueError of the
data-bits/stop-bits validation included — is surfaced as a
ConnectionError carrying the `Failed to open serial port` message, so a
configuration error and a transport open failure are indistinguishable
by exception type. -/
theorem init_failure_uniform_wrapping (port parity : String) (bytesize stopbits : Nat)
    (portResult : Except PyErr Unit) (e : PyErr)
    (h : energyMeterInit port parity bytesize stopbits portResult = .error e) :
    (∃ m, e = .connectionError ("Failed to open serial port " ++ port ++ ": " ++ m)) ∧
    (bytesize ∉ [5, 6, 7, 8] →
      e = .connectionError ("Failed to open serial port " ++ port ++ ": " ++
        "Bytesize must be 5, 6, 7, or 8")) := by
  unfold energyMeterInit at h
  cases ho : openSerial parity bytesize stopbits portResult with
  | ok s => rw [ho] at h; exact absurd h (by simp)
  | error e2 =>
    rw [ho] at h
    simp only [Except.error.injEq] at h
    subst h
    constructor
    · exact ⟨errStr e2, rfl⟩
    · intro hb
      have hpb : parse_bytesize bytesize
          = .error (.valueError "Bytesize must be 5, 6, 7, or 8") := if_pos hb
      unfold openSerial at ho
      rw [hpb] at ho
      simp only [Except.error.injEq] at ho
      rw [← ho]
      rfl

/-- Witness for C9 at data bits 9: the ValueError of the bytesize
validation reaches the caller as the wrapped ConnectionError. -/
theorem init_failure_uniform_wrapping_witness :
    energyMeterInit "p" "N" 9 1 (.ok ())
      = .error (.connectionError ("Failed to open serial port " ++ "p" ++ ": " ++
          "Bytesize must be 5, 6, 7, or 8")) ∧
    ∃ m, (PyErr.connectionError ("Failed to open serial port " ++ "p" ++ ": " ++
          "Bytesize must be 5, 6, 7, or 8"))
      = .connectionError ("Failed to open serial port " ++ "p" ++ ": " ++ m) :=
  ⟨by rfl, (init_failure_uniform_wrapping "p" "N" 9 1 (.ok ()) _ (by rfl)).1⟩

/-- A single attribute assignment: its value does not depend on the
previous snapshot, and any other attribute is untouched. -/
lemma setF_single (g : Attr) (v : ℚ) (s₁ s₂ : Meter) (f : Attr) (hs : s₁ f = s₂ f) :
    setF g v s₁ f = setF g v s₂ f ∧ (f ∉ [g] → setF g v s₁ f = s₁ f) := by
  constructor
  · simp only [setF]
    split_ifs <;> first | rfl | exact hs
  · intro hf
    have hg : f ≠ g := by simpa using hf
    simp only [setF, if_neg hg]

/-- Two attribute assignments (the energy branch): values do not depend
on the previous snapshot, and any other attribute is untouched. -/
lemma setF_double (g1 g2 : Attr) (v1 v2 : ℚ) (s₁ s₂ : Meter) (f : Attr) (hs : s₁ f = s₂ f) :
    setF g2 v2 (setF g1 v1 s₁) f = setF g2 v2 (setF g1 v1 s₂) f ∧
    (f ∉ [g1, g2] → setF g2 v2 (setF g1 v1 s₁) f = s₁ f) := by
  constructor
  · simp only [setF]
    split_ifs <;> first | rfl | exact hs
  · intro hf
    have h1 : f ≠ g1 := by simp at hf; exact hf.1
    have h2 : f ≠ g2 := by simp at hf; exact hf.2
    simp only [setF, if_neg h1, if_neg h2]

set_option maxHeartbeats 2000000 in
/-- One decode step writes values that depend only on the payload, and
it writes nothing outside its `fieldsOf` footprint. -/
lemma processParam_congr_frame (param : String) (payload : List Nat) (s₁ s₂ : Meter)
    (f : Attr) (hs : s₁ f = s₂ f) :
    processParam param payload s₁ f = processParam param payload s₂ f ∧
    (f ∉ fieldsOf param → processParam param payload s₁ f = s₁ f) := by
  unfold processParam fieldsOf
  cases hLk : List.lookup param power_mapping with
  | none =>
    split_ifs <;>
      first
        | exact ⟨hs, fun _ => rfl⟩
        | exact setF_double _ _ _ _ _ _ f hs
        | exact setF_single _ _ _ _ f hs
  | some g =>
    split_ifs <;>
      first
        | exact ⟨hs, fun _ => rfl⟩
        | exact setF_double _ _ _ _ _ _ f hs
        | exact setF_single _ _ _ _ f hs

/-- A response shorter than the branch minimum decodes to nothing: the
snapshot is returned unchanged. -/
lemma processParam_short (param : String) (payload : List Nat) (s : Meter)
    (h : payload.length < minLen param) :
    processParam param payload s = s := by
  unfold minLen at h
  unfold processParam
  split_ifs at h ⊢ <;> rfl

/-- A failed exchange (I/O error, empty or too-short response) leaves
the whole snapshot unchanged. -/
lemma stepParam_failed (t : String → ExchResult) (param : String) (s : Meter)
    (h : FailedExchange param (t param)) :
    stepParam t s param = s := by
  cases ht : t param with
  | ioError => simp [stepParam, ht]
  | ok payload =>
    rw [ht] at h
    simp only [FailedExchange] at h
    rcases h with h | h
    · simp [stepParam, ht, h]
    · by_cases hnil : payload = []
      · simp [stepParam, ht, hnil]
      · simp only [stepParam, ht]
        rw [if_neg hnil]
        exact processParam_short param payload s h

/-- One loop iteration never writes outside the footprint of its
parameter. -/
lemma stepParam_frame (t : String → ExchResult) (s : Meter) (param : String)
    (f : Attr) (hf : f ∉ fieldsOf param) :
    stepParam t s param f = s f := by
  cases ht : t param with
  | ioError => simp [stepParam, ht]
  | ok payload =>
    by_cases hnil : payload = []
    · simp [stepParam, ht, hnil]
    · simp only [stepParam, ht]
      rw [if_neg hnil]
      exact (processParam_congr_frame param payload s s f rfl).2 hf

/-- One loop iteration is determined, at each attribute, by the
response to its own parameter and the previous value of that attribute. -/
lemma stepParam_congr (t₁ t₂ : String → ExchResult) (s₁ s₂ : Meter) (param : String)
    (f : Attr) (ht : t₁ param = t₂ param) (hs : s₁ f = s₂ f) :
    stepParam t₁ s₁ param f = stepParam t₂ s₂ param f := by
  cases h2 : t₂ param with
  | ioError =>
    have h1 : t₁ param = .ioError := by rw [ht, h2]
    simp [stepParam, h1, h2, hs]
  | ok payload =>
    have h1 : t₁ param = .ok payload := by rw [ht, h2]
    by_cases hnil : payload = []
    · simp [stepParam, h1, h2, hnil, hs]
    · simp only [stepParam, h1, h2]
      rw [if_neg hnil, if_neg hnil]
      exact (processParam_congr_frame param payload s₁ s₂ f hs).1

/-- If the exchange for `p` fails and no other polled parameter writes
into `p`'s footprint, the whole pass leaves `p`'s attributes at their
pre-pass values. -/
lemma foldl_failed_frame (t : String → ExchResult) (p : String)
    (hfail : FailedExchange p (t p)) :
    ∀ names : List String, (∀ q ∈ names, q = p ∨ ∀ f ∈ fieldsOf p, f ∉ fieldsOf q) →
    ∀ s : Meter, ∀ f ∈ fieldsOf p, List.foldl (stepParam t) s names f = s f := by
  intro names
  induction names with
  | nil => intro _ s f _; rfl
  | cons q rest ih =>
    intro hdisj s f hf
    rw [List.foldl_cons]
    have hrest : ∀ r ∈ rest, r = p ∨ ∀ f ∈ fieldsOf p, f ∉ fieldsOf r :=
      fun r hr => hdisj r (List.mem_cons_of_mem q hr)
    rcases hdisj q (List.mem_cons_self q rest) with rfl | hq
    · rw [stepParam_failed t q s hfail]
      exact ih hrest s f hf
    · rw [ih hrest (stepParam t s q) f hf]
      exact stepParam_frame t s q f (hq f hf)

/-- Outside the footprint of `p`, a pass run under two transports that
agree off `p` computes the same attribute values from states that agree
off `p`'s footprint. -/
lemma foldl_agree (t₁ t₂ : String → ExchResult) (p : String)
    (ht : ∀ q, q ≠ p → t₁ q = t₂ q) :
    ∀ (names : List String) (s₁ s₂ : Meter),
      (∀ g, g ∉ fieldsOf p → s₁ g = s₂ g) →
      ∀ g, g ∉ fieldsOf p →
        List.foldl (stepParam t₁) s₁ names g = List.foldl (stepParam t₂) s₂ names g := by
  intro names
  induction names with
  | nil => intro s₁ s₂ hs g hg; exact hs g hg
  | cons q rest ih =>
    intro s₁ s₂ hs g hg
    rw [List.foldl_cons, List.foldl_cons]
    refine ih (stepParam t₁ s₁ q) (stepParam t₂ s₂ q) ?_ g hg
    intro g' hg'
    by_cases hq : q = p
    · subst hq
      rw [stepParam_frame t₁ s₁ q g' hg', stepParam_frame t₂ s₂ q g' hg']
      exact hs g' hg'
    · exact stepParam_congr t₁ t₂ s₁ s₂ q g' (ht q hq) (hs g' hg')

/-- Distinct catalogue entries have disjoint write footprints. -/
lemma catalogue_write_disjoint :
    ∀ p ∈ passNames, ∀ q ∈ passNames, q = p ∨ ∀ f ∈ fieldsOf p, f ∉ fieldsOf q := by
  decide

/-- C4: within one pass, a failed exchange for parameter `p` — I/O
error, empty response, or response shorter than the branch minimum — is
recovered locally: `p`'s snapshot attributes keep their pre-pass values,
and every other attribute gets exactly the value it would get under a
transport where `p` did not fail; the pass itself is a total function
(no in-pass failure propagates). -/
theorem pass_failure_isolation (t t' : String → ExchResult) (p : String) (s : Meter)
    (hp : p ∈ passNames)
    (hagree : ∀ q, q ≠ p → t' q = t q)
    (hfail : FailedExchange p (t' p)) :
    (∀ f ∈ fieldsOf p, read_data t' s f = s f) ∧
    (∀ f, f ∉ fieldsOf p → read_data t' s f = read_data t s f) := by
  unfold read_data
  constructor
  · intro f hf
    exact foldl_failed_frame t' p hfail passNames (catalogue_write_disjoint p hp) s f hf
  · intro f hf
    exact foldl_agree t' t p hagree passNames s s (fun _ _ => rfl) f hf

/-- Witness for C4: under a transport that answers every request with an
empty response, a full pass leaves the active-energy attribute at its
initial value. -/
theorem pass_failure_isolation_witness :
    "Energy" ∈ passNames ∧ Attr.energy_act ∈ fieldsOf "Energy" ∧
    read_data (fun _ => ExchResult.ok []) initSnapshot Attr.energy_act
      = initSnapshot Attr.energy_act :=
  ⟨by decide, by decide,
   (pass_failure_isolation (fun _ => .ok []) (fun _ => .ok []) "Energy" initSnapshot
      (by decide) (fun _ _ => rfl) (Or.inl rfl)).1 Attr.energy_act (by decide)⟩
